import Mathlib

set_option maxRecDepth 2048

/-!
Shallow embedding of the proxy/aggregation core of `backend/server.js`
(Mini Ergo Wallet Tracker, testnet).  JavaScript values are modelled by
an inductive `Jv` (null and undefined are merged: both are falsy, both
throw on property access, and neither is distinguished by any route).
Machine numerics: every number the core manipulates is an integer
(timestamps, HTTP statuses, limits, BigInt amounts), so numbers are
modelled by `Int`/`Nat`; JS doubles' rounding above 2^53 never matters
for the modelled quantities (BigInt is exact, and limit/offset/status
values are small).  Fallible operations (thrown exceptions) return
`Option`.
-/

/-- A JSON/JavaScript value as observed by the server code.
`jnull` stands for both `null` and `undefined`. -/
inductive Jv where
  | jnull
  | jbool (b : Bool)
  | jnum (n : Int)
  | jstr (s : String)
  | jarr (elems : List Jv)
  | jobj (fields : List (String × Jv))

/-- JS truthiness of a value (`if (x)`): null/undefined, `0`, `""`,
`false` are falsy; arrays and objects are always truthy. -/
def truthy : Jv → Bool
  | .jnull => false
  | .jbool b => b
  | .jnum n => decide (n ≠ 0)
  | .jstr s => decide (s ≠ "")
  | .jarr _ => true
  | .jobj _ => true

/-- `a || b` on JS values. -/
def jsOr (a b : Jv) : Jv := if truthy a then a else b

/-- `Array.isArray`. -/
def isArr : Jv → Bool
  | .jarr _ => true
  | _ => false

/-- `Array.isArray` unwrapping; `none` on non-arrays (where iterating
with `.forEach` would throw a TypeError). -/
def asArray : Jv → Option (List Jv)
  | .jarr xs => some xs
  | _ => none

/-- First-match association-list lookup (the behaviour of a JS `Map`
read and of JS object property lookup on our field lists). -/
def mapGet {α : Type} : List (String × α) → String → Option α
  | [], _ => none
  | (k', v) :: rest, k => if k' = k then some v else mapGet rest k

/-- JS `Map.prototype.set`: replace in place when the key is present
(keeping its position), otherwise append at the end. -/
def mapSet {α : Type} : List (String × α) → String → α → List (String × α)
  | [], k, v => [(k, v)]
  | (k', v') :: rest, k, v =>
    if k' = k then (k, v) :: rest else (k', v') :: mapSet rest k v

/-- JS `Map.prototype.delete`. -/
def mapDelete {α : Type} (m : List (String × α)) (k : String) : List (String × α) :=
  m.filter (fun p => p.1 ≠ k)

/-- Property access `j[k]`: `none` models the TypeError thrown when
reading a property of null/undefined; a missing key and any
non-object receiver yield `undefined` (here `jnull`). -/
def propGet : Jv → String → Option Jv
  | .jnull, _ => none
  | .jobj fields, k => some ((mapGet fields k).getD .jnull)
  | _, _ => some .jnull

/-- Property access in positions where the receiver is known truthy
(hence not null), so the access cannot throw. -/
def propGetD (j : Jv) (k : String) : Jv := (propGet j k).getD .jnull

/-- The whitespace class used by JS `String.prototype.trim` and by the
`\s` regex class, restricted to the characters that can actually occur
here (ASCII whitespace and NBSP; the rarer Unicode space code points
are not exercised by any request the claims consider). -/
def isJsSpace (c : Char) : Bool :=
  c == ' ' || c == '\t' || c == '\n' || c == '\r' ||
  c == '\x0b' || c == '\x0c' || c == ' '

/-- Strip leading and trailing JS whitespace from a character list. -/
def trimChars (cs : List Char) : List Char :=
  ((cs.dropWhile isJsSpace).reverse.dropWhile isJsSpace).reverse

/-- `String.prototype.trim`. -/
def jsTrim (s : String) : String := String.mk (trimChars s.toList)

/-- `s.replace(/\s/g, '')`: remove every whitespace character. -/
def removeAllWs (s : String) : String :=
  String.mk (s.toList.filter (fun c => !isJsSpace c))

/-- Decimal digit value. -/
def digitVal (c : Char) : Option Nat :=
  if c.isDigit then some (c.toNat - 48) else none

/-- Hexadecimal digit value. -/
def hexVal (c : Char) : Option Nat :=
  if c.isDigit then some (c.toNat - 48)
  else if 'a' ≤ c && c ≤ 'f' then some (c.toNat - 87)
  else if 'A' ≤ c && c ≤ 'F' then some (c.toNat - 55)
  else none

/-- Octal digit value. -/
def octVal (c : Char) : Option Nat :=
  if '0' ≤ c && c ≤ '7' then some (c.toNat - 48) else none

/-- Binary digit value. -/
def binVal (c : Char) : Option Nat :=
  if c == '0' then some 0 else if c == '1' then some 1 else none

/-- Parse a non-empty run of digits in the given base; `none` when the
run is empty or contains a non-digit. -/
def parseRadix (dv : Char → Option Nat) (base : Nat) (cs : List Char) : Option Nat :=
  if cs.isEmpty then none
  else cs.foldlM (fun acc c => (dv c).map (fun d => acc * base + d)) 0

/-- ECMAScript `StringToBigInt` (the conversion performed by
`BigInt(string)`): trim whitespace; empty means `0n`; otherwise an
optionally signed decimal literal or a `0x`/`0o`/`0b` literal; anything
else (e.g. `"1.5"`) throws, modelled by `none`. -/
def stringToBigInt (s : String) : Option Int :=
  match trimChars s.toList with
  | [] => some 0
  | '0' :: c :: rest =>
    if c == 'x' || c == 'X' then (parseRadix hexVal 16 rest).map Int.ofNat
    else if c == 'o' || c == 'O' then (parseRadix octVal 8 rest).map Int.ofNat
    else if c == 'b' || c == 'B' then (parseRadix binVal 2 rest).map Int.ofNat
    else (parseRadix digitVal 10 ('0' :: c :: rest)).map Int.ofNat
  | '+' :: rest => (parseRadix digitVal 10 rest).map Int.ofNat
  | '-' :: rest => (parseRadix digitVal 10 rest).map (fun n => -(n : Int))
  | cs => (parseRadix digitVal 10 cs).map Int.ofNat

mutual

/-- `String(v)` for the values that can reach it here.  Arrays render by
joining their elements with commas (`Array.prototype.join`, in which a
null/undefined element renders empty); plain objects render as
`[object Object]`. -/
def jsToString : Jv → String
  | .jnull => "null"
  | .jbool b => if b then "true" else "false"
  | .jnum n => toString n
  | .jstr s => s
  | .jarr xs => jsJoinComma xs
  | .jobj _ => "[object Object]"

/-- Comma-join of array elements for `String(array)`. -/
def jsJoinComma : List Jv → String
  | [] => ""
  | [.jnull] => ""
  | [e] => jsToString e
  | .jnull :: rest => "," ++ jsJoinComma rest
  | e :: rest => jsToString e ++ "," ++ jsJoinComma rest

end

/-- `BigInt(v || 0)` as used by the aggregator on `value` and `amount`
fields: a falsy field contributes `0`; a truthy string goes through
`StringToBigInt`; a truthy (integer) number converts exactly; `true`
is `1n`; arrays and objects are first converted to a string
(`ToPrimitive`) and then parsed, which throws for plain objects. -/
def bigIntOrZero (v : Jv) : Option Int :=
  if truthy v then
    match v with
    | .jstr s => stringToBigInt s
    | .jnum n => some n
    | .jbool _ => some 1
    | j => stringToBigInt (jsToString j)
  else some 0

/-- `parseInt(s, 10)`: skip leading whitespace, optional sign, then the
leading run of decimal digits; `none` models `NaN`.  (The loss of
precision a JS double would suffer beyond 2^53 is not modelled; the
clamped quantities this feeds are small.)  This helper reads the
leading run of decimal digits. -/
def leadingDecNat (cs : List Char) : Option Nat :=
  let ds := cs.takeWhile Char.isDigit
  if ds.isEmpty then none
  else some (ds.foldl (fun (a : Nat) c => a * 10 + (c.toNat - 48)) 0)

/-- `parseInt(s, 10)` continued: dispatch on the optional sign. -/
def jsParseInt (s : String) : Option Int :=
  match s.toList.dropWhile isJsSpace with
  | '+' :: rest => (leadingDecNat rest).map Int.ofNat
  | '-' :: rest => (leadingDecNat rest).map (fun n => -(n : Int))
  | cs => (leadingDecNat cs).map Int.ofNat

-- --- cache (lines 68-83 of server.js) ---

/-- One cache slot: `{ data, ts }`. -/
structure CacheEntry where
  data : Jv
  ts : Int

/-- The in-memory cache `Map`, keyed by resolved upstream URL. -/
def Cache := List (String × CacheEntry)

/-- `CACHE_TTL_MS = 30 * 1000`. -/
def CACHE_TTL_MS : Int := 30000

/-- `getCached(key)`: miss on an absent key; an entry older than the TTL
is deleted and reported as a miss; otherwise the stored data is returned
unchanged.  Returns the (possibly evicted-from) cache alongside. -/
def getCached (c : Cache) (now : Int) (key : String) : Option Jv × Cache :=
  match mapGet c key with
  | none => (none, c)
  | some e =>
    if now - e.ts > CACHE_TTL_MS then (none, mapDelete c key)
    else (some e.data, c)

/-- `setCached(key, data)`: store `{ data, ts: Date.now() }`. -/
def setCached (c : Cache) (now : Int) (key : String) (data : Jv) : Cache :=
  mapSet c key ⟨data, now⟩

-- --- URL construction ---

/-- Upper-case hexadecimal digit. -/
def hexDigitU (n : Nat) : Char :=
  if n < 10 then Char.ofNat (48 + n) else Char.ofNat (55 + n)

/-- UTF-8 bytes of a character (as numbers 0..255). -/
def utf8Bytes (c : Char) : List Nat :=
  let n := c.toNat
  if n < 0x80 then [n]
  else if n < 0x800 then [0xC0 + n / 0x40, 0x80 + n % 0x40]
  else if n < 0x10000 then
    [0xE0 + n / 0x1000, 0x80 + (n / 0x40) % 0x40, 0x80 + n % 0x40]
  else
    [0xF0 + n / 0x40000, 0x80 + (n / 0x1000) % 0x40, 0x80 + (n / 0x40) % 0x40,
     0x80 + n % 0x40]

/-- Characters `encodeURIComponent` leaves unescaped. -/
def isUriUnreserved (c : Char) : Bool :=
  c.isAlpha || c.isDigit ||
  c == '-' || c == '_' || c == '.' || c == '!' || c == '~' || c == '*' ||
  c == Char.ofNat 39 || c == '(' || c == ')'

/-- `encodeURIComponent`. -/
def encodeURIComponent (s : String) : String :=
  String.join (s.toList.map (fun c =>
    if isUriUnreserved c then String.singleton c
    else String.join ((utf8Bytes c).map (fun b =>
      String.mk ['%', hexDigitU (b / 16), hexDigitU (b % 16)]))))

/-- `TESTNET_BASE`. -/
def TESTNET_BASE : String := "https://api-testnet.ergoplatform.com/api/v1"

/-- URL of the UTXO route's upstream request (line 139). -/
def utxoUrl (address : String) (limit offset : Int) : String :=
  TESTNET_BASE ++ "/boxes/byAddress/" ++ encodeURIComponent address ++
    "?limit=" ++ toString limit ++ "&offset=" ++ toString offset

/-- URL of the asset route's upstream request (line 175). -/
def assetUrl (id : String) : String :=
  TESTNET_BASE ++ "/tokens/" ++ encodeURIComponent id

/-- URL of the tx route's upstream request (line 200). -/
def txUrl (id : String) : String :=
  TESTNET_BASE ++ "/transactions/byId/" ++ encodeURIComponent id

/-- URL of the summary route's upstream request (line 226). -/
def summaryUrl (address : String) : String :=
  TESTNET_BASE ++ "/boxes/byAddress/" ++ encodeURIComponent address ++ "?limit=500"

-- --- request parameter normalization ---

/-- Address normalization (lines 126-127 and 222-223):
`String(req.params.address || '').replace(/\s/g, '').trim()`. -/
def normalizeAddress (p : String) : String := jsTrim (removeAllWs p)

/-- Token-id / tx-id normalization (lines 172 and 197):
`String(req.params.tokenId || '').trim()`. -/
def normalizeId (p : String) : String := jsTrim p

/-- The clamp of line 136-137: `if (limit > 500) limit = 500`. -/
def capLimit (n : Int) : Int := if n > 500 then 500 else n

/-- Effective `limit` (lines 131-137).  `none` models an absent query
parameter (`parseInt(undefined, 10)` is `NaN`). -/
def effLimit (q : Option String) : Int :=
  let p := q.bind jsParseInt
  -- let limit = parseInt(req.query.limit, 10) || 100
  let l1 : Int := match p with | none => 100 | some n => if n = 0 then 100 else n
  -- if (Number.isNaN(limit) || limit <= 0) limit = 100  (the NaN test is
  -- unreachable: `|| 100` already replaced NaN)
  let l2 : Int := if l1 ≤ 0 then 100 else l1
  capLimit l2

/-- Effective `offset` (lines 132, 134). -/
def effOffset (q : Option String) : Int :=
  let p := q.bind jsParseInt
  -- let offset = parseInt(req.query.offset, 10) || 0
  let o1 : Int := match p with | none => 0 | some n => if n = 0 then 0 else n
  -- if (Number.isNaN(offset) || offset < 0) offset = 0
  if o1 < 0 then 0 else o1

-- --- upstream fetch outcomes and responses ---

/-- Outcome of `fetchWithTimeout` plus body reading: an HTTP response
(with its status, `text()` body and `json()` parse result, the latter
`none` when parsing throws), an `AbortError` (the timeout fired), or
any other thrown failure (network-level error). -/
inductive FetchResult where
  | ok (status : Nat) (text : String) (json : Option Jv)
  | abortErr
  | netErr

/-- `response.ok` in node-fetch: status in [200, 300). -/
def respOk (s : Nat) : Bool := decide (200 ≤ s) && decide (s < 300)

/-- `txt.slice(0, 1000)`: the first 1000 characters (JS counts UTF-16
units; the difference only shows on astral code points). -/
def truncate1000 (s : String) : String := String.mk (s.toList.take 1000)

/-- What a handler returns to Express: HTTP status and JSON body. -/
structure HttpResponse where
  status : Nat
  body : Jv

/-- Result of running one route handler: the response sent, the cache
state afterwards, and the upstream URL fetched (`none` when no
upstream call was made). -/
structure RouteResult where
  resp : HttpResponse
  cache : Cache
  upstreamUrl : Option String

-- --- response normalization ---

/-- UTXO-route response normalization (line 159):
`Array.isArray(json) ? json : (json.items || json)`.  `none` models the
TypeError thrown by the property access when `json` is null. -/
def normalizeUtxo (json : Jv) : Option Jv :=
  if isArr json then some json
  else (propGet json "items").map (fun it => if truthy it then it else json)

/-- Summary-route item extraction (line 228):
`(data && data.items) ? data.items : (Array.isArray(data) ? data : [])`.
Total: `data && data.items` short-circuits on falsy `data`, so no
property access can throw here. -/
def summaryItemsOf (data : Jv) : Jv :=
  if truthy data && truthy (propGetD data "items") then propGetD data "items"
  else if isArr data then data else .jarr []

-- --- aggregator (lines 231-242) ---

/-- One step of the inner `forEach` over an item's `assets`:
`tokenMap.set(String(a.tokenId), (tokenMap.get(id) || 0n) + BigInt(a.amount || 0))`.
`none` models a thrown conversion/property error. -/
def addAsset (m : List (String × Int)) (a : Jv) : Option (List (String × Int)) := do
  let tidJ ← propGet a "tokenId"
  let id := jsToString tidJ
  let amt ← bigIntOrZero (propGetD a "amount")
  pure (mapSet m id ((mapGet m id).getD 0 + amt))

/-- One step of the outer `forEach` over items:
`totalNanoErg += BigInt(it.value || 0)` and then the assets loop over
`(it.assets || [])`. -/
def addItem (acc : Int × List (String × Int)) (it : Jv) : Option (Int × List (String × Int)) := do
  let v ← propGet it "value"
  let n ← bigIntOrZero v
  let aJ ← propGet it "assets"
  let assets ← asArray (jsOr aJ (.jarr []))
  let m ← assets.foldlM addAsset acc.2
  pure (acc.1 + n, m)

/-- The aggregation loop: `totalNanoErg = 0n`, `tokenMap = new Map()`,
then `items.forEach(...)`. -/
def summarizeItems (its : List Jv) : Option (Int × List (String × Int)) :=
  its.foldlM addItem (0, [])

/-- The summary route's whole computation over the fetched/cached
`data`: extract the item list (line 228) and aggregate it; `none`
models any exception reaching the handler's catch. -/
def summaryCompute (data : Jv) : Option (List Jv × Int × List (String × Int)) := do
  let its ← asArray (summaryItemsOf data)
  let r ← summarizeItems its
  pure (its, r.1, r.2)

/-- The 200 body of the summary route (lines 242-251): `tokens` carries
`amount` serialized with `BigInt.prototype.toString` (decimal), as does
`totalNanoErg`. -/
def summaryBody (address : String) (now : Int) (its : List Jv) (total : Int)
    (tm : List (String × Int)) : Jv :=
  let tokens := tm.map (fun p => Jv.jobj [("tokenId", .jstr p.1), ("amount", .jstr (toString p.2))])
  .jobj [("fetchedAt", .jnum now), ("address", .jstr address),
         ("totalNanoErg", .jstr (toString total)),
         ("tokenCount", .jnum tokens.length),
         ("tokens", .jarr tokens),
         ("utxoCount", .jnum its.length)]

/-- The summary route's generic catch body (line 254); the `detail`
field carries the runtime error message, represented abstractly. -/
def summaryErrBody : Jv :=
  .jobj [("error", .jstr "خطا در ساخت خلاصه"), ("detail", .jstr "Error")]

/-- Aggregate `data` and respond: 200 with the summary on success, the
catch-all 500 envelope when the computation throws. -/
def mkSummaryResult (address : String) (now : Int) (data : Jv) (c : Cache)
    (u : Option String) : RouteResult :=
  match summaryCompute data with
  | some (its, total, tm) => ⟨⟨200, summaryBody address now its total tm⟩, c, u⟩
  | none => ⟨⟨500, summaryErrBody⟩, c, u⟩

-- --- route handlers ---

/-- `/api/wallet/:address/utxos` (lines 124-167).  `fetch` stands for
the network; `now` for `Date.now()` during this request. -/
def utxoHandler (fetch : String → FetchResult) (c : Cache) (now : Int)
    (addressParam : String) (limitQ offsetQ : Option String) : RouteResult :=
  let address := normalizeAddress addressParam
  if address = "" then
    ⟨⟨400, .jobj [("error", .jstr "آدرس نامعتبر است")]⟩, c, none⟩
  else
    let limit := effLimit limitQ
    let offset := effOffset offsetQ
    let url := utxoUrl address limit offset
    let g := getCached c now url
    let cached := g.1.getD .jnull
    if truthy cached then
      -- res.json({fetchedAt, cached: true, from: url, items: cached.items || []})
      ⟨⟨200, .jobj [("fetchedAt", .jnum now), ("cached", .jbool true),
                    ("from", .jstr url),
                    ("items", jsOr (propGetD cached "items") (.jarr []))]⟩, g.2, none⟩
    else
      match fetch url with
      | .ok status text json =>
        if respOk status then
          match json with
          | some j =>
            match normalizeUtxo j with
            | some items =>
              ⟨⟨200, .jobj [("fetchedAt", .jnum now), ("cached", .jbool false),
                            ("from", .jstr url), ("items", items)]⟩,
               setCached g.2 now url (.jobj [("items", items), ("raw", j)]), some url⟩
            | none =>
              ⟨⟨500, .jobj [("error", .jstr "خطا در دریافت UTXOها"), ("detail", .jstr "TypeError")]⟩,
               g.2, some url⟩
          | none =>
            ⟨⟨500, .jobj [("error", .jstr "خطا در دریافت UTXOها"), ("detail", .jstr "SyntaxError")]⟩,
             g.2, some url⟩
        else
          ⟨⟨if status ≥ 500 then 502 else status,
            .jobj [("error", .jstr "خطا از Explorer"), ("status", .jnum status),
                   ("body", .jstr (truncate1000 text))]⟩, g.2, some url⟩
      | .abortErr =>
        ⟨⟨504, .jobj [("error", .jstr "Explorer request timed out")]⟩, g.2, some url⟩
      | .netErr =>
        ⟨⟨500, .jobj [("error", .jstr "خطا در دریافت UTXOها"), ("detail", .jstr "Error")]⟩,
         g.2, some url⟩

/-- `/api/asset/:tokenId` (lines 170-192).  The catch clause of this
route has no `AbortError` branch: every thrown failure, a timeout
included, produces the generic 500. -/
def assetHandler (fetch : String → FetchResult) (c : Cache) (now : Int)
    (tokenIdParam : String) : RouteResult :=
  let id := normalizeId tokenIdParam
  if id = "" then
    ⟨⟨400, .jobj [("error", .jstr "tokenId لازم است")]⟩, c, none⟩
  else
    let url := assetUrl id
    let g := getCached c now url
    let cached := g.1.getD .jnull
    if truthy cached then
      ⟨⟨200, .jobj [("fetchedAt", .jnum now), ("cached", .jbool true),
                    ("from", .jstr url), ("item", cached)]⟩, g.2, none⟩
    else
      match fetch url with
      | .ok status text json =>
        if respOk status then
          match json with
          | some j =>
            ⟨⟨200, .jobj [("fetchedAt", .jnum now), ("cached", .jbool false),
                          ("from", .jstr url), ("item", j)]⟩,
             setCached g.2 now url j, some url⟩
          | none =>
            ⟨⟨500, .jobj [("error", .jstr "خطا در گرفتن اطلاعات توکن"), ("detail", .jstr "SyntaxError")]⟩,
             g.2, some url⟩
        else
          ⟨⟨if status ≥ 500 then 502 else status,
            .jobj [("error", .jstr "Explorer token API error"), ("status", .jnum status),
                   ("body", .jstr (truncate1000 text))]⟩, g.2, some url⟩
      | .abortErr =>
        ⟨⟨500, .jobj [("error", .jstr "خطا در گرفتن اطلاعات توکن"), ("detail", .jstr "AbortError")]⟩,
         g.2, some url⟩
      | .netErr =>
        ⟨⟨500, .jobj [("error", .jstr "خطا در گرفتن اطلاعات توکن"), ("detail", .jstr "Error")]⟩,
         g.2, some url⟩

/-- `/api/tx/:txId` (lines 195-217); same shape as the asset route. -/
def txHandler (fetch : String → FetchResult) (c : Cache) (now : Int)
    (txIdParam : String) : RouteResult :=
  let id := normalizeId txIdParam
  if id = "" then
    ⟨⟨400, .jobj [("error", .jstr "txId لازم است")]⟩, c, none⟩
  else
    let url := txUrl id
    let g := getCached c now url
    let cached := g.1.getD .jnull
    if truthy cached then
      ⟨⟨200, .jobj [("fetchedAt", .jnum now), ("cached", .jbool true),
                    ("from", .jstr url), ("item", cached)]⟩, g.2, none⟩
    else
      match fetch url with
      | .ok status text json =>
        if respOk status then
          match json with
          | some j =>
            ⟨⟨200, .jobj [("fetchedAt", .jnum now), ("cached", .jbool false),
                          ("from", .jstr url), ("item", j)]⟩,
             setCached g.2 now url j, some url⟩
          | none =>
            ⟨⟨500, .jobj [("error", .jstr "خطا در گرفتن اطلاعات تراکنش"), ("detail", .jstr "SyntaxError")]⟩,
             g.2, some url⟩
        else
          ⟨⟨if status ≥ 500 then 502 else status,
            .jobj [("error", .jstr "Explorer tx API error"), ("status", .jnum status),
                   ("body", .jstr (truncate1000 text))]⟩, g.2, some url⟩
      | .abortErr =>
        ⟨⟨500, .jobj [("error", .jstr "خطا در گرفتن اطلاعات تراکنش"), ("detail", .jstr "AbortError")]⟩,
         g.2, some url⟩
      | .netErr =>
        ⟨⟨500, .jobj [("error", .jstr "خطا در گرفتن اطلاعات تراکنش"), ("detail", .jstr "Error")]⟩,
         g.2, some url⟩

/-- `/api/summary/:address` (lines 220-256).  Note three deliberate
transcriptions from the source: the upstream response's status is never
inspected (`.json()` is called on whatever came back), nothing is ever
stored in the cache, and the catch clause has no `AbortError` branch. -/
def summaryHandler (fetch : String → FetchResult) (c : Cache) (now : Int)
    (addressParam : String) : RouteResult :=
  let address := normalizeAddress addressParam
  if address = "" then
    ⟨⟨400, .jobj [("error", .jstr "آدرس لازم است")]⟩, c, none⟩
  else
    let url := summaryUrl address
    let g := getCached c now url
    let cachedJ := g.1.getD .jnull
    -- const data = getCached(url) || (await (await fetchWithTimeout(url)).json());
    if truthy cachedJ then
      mkSummaryResult address now cachedJ g.2 none
    else
      match fetch url with
      | .ok _status _text json =>
        match json with
        | some data => mkSummaryResult address now data g.2 (some url)
        | none => ⟨⟨500, summaryErrBody⟩, g.2, some url⟩
      | .abortErr => ⟨⟨500, summaryErrBody⟩, g.2, some url⟩
      | .netErr => ⟨⟨500, summaryErrBody⟩, g.2, some url⟩

-- --- basic lemmas about the map operations ---

lemma mapGet_mapSet_self {α : Type} (m : List (String × α)) (k : String) (v : α) :
    mapGet (mapSet m k v) k = some v := by
  induction m with
  | nil => simp [mapSet, mapGet]
  | cons p rest ih =>
    obtain ⟨k', v'⟩ := p
    by_cases h : k' = k
    · simp [mapSet, mapGet, h]
    · simp [mapSet, mapGet, h, ih]

lemma mapGet_mapSet_ne {α : Type} (m : List (String × α)) (k k'' : String) (v : α)
    (h : k ≠ k'') : mapGet (mapSet m k v) k'' = mapGet m k'' := by
  induction m with
  | nil => simp [mapSet, mapGet, h]
  | cons p rest ih =>
    obtain ⟨k', v'⟩ := p
    simp only [mapSet]
    by_cases hk : k' = k
    · subst hk
      rw [if_pos rfl]
      simp [mapGet, h]
    · rw [if_neg hk]
      by_cases hk2 : k' = k''
      · simp [mapGet, hk2]
      · simp [mapGet, hk2, ih]

lemma mapGet_mapDelete_self {α : Type} (m : List (String × α)) (k : String) :
    mapGet (mapDelete m k) k = none := by
  induction m with
  | nil => simp [mapDelete, mapGet]
  | cons p rest ih =>
    obtain ⟨k', v'⟩ := p
    by_cases h : k' = k
    · simpa [mapDelete, List.filter, h] using ih
    · simpa [mapDelete, List.filter, h, mapGet] using ih

lemma getCached_setCached_fresh (c : Cache) (t now : Int) (k : String) (v : Jv)
    (h : now - t ≤ 30000) :
    getCached (setCached c t k v) now k = (some v, setCached c t k v) := by
  unfold getCached setCached
  rw [mapGet_mapSet_self]
  simp only [CACHE_TTL_MS]
  have : ¬ (now - t > 30000) := by omega
  simp [this]

-- --- C5: limit/offset normalization ---

/-- C5.  On the UTXO route the effective limit is 100 when `limit` is
absent, non-numeric, or ≤ 0, and `min(requested, 500)` otherwise (so
every request above 500 becomes exactly 500, and the cap is
idempotent); the effective offset is 0 when `offset` is absent,
invalid, or negative, and the requested value otherwise. -/
theorem C5_limit_offset_clamping :
    (effLimit none = 100) ∧
    (∀ s, jsParseInt s = none → effLimit (some s) = 100) ∧
    (∀ s n, jsParseInt s = some n → n ≤ 0 → effLimit (some s) = 100) ∧
    (∀ s n, jsParseInt s = some n → 0 < n → effLimit (some s) = min n 500) ∧
    (∀ s n, jsParseInt s = some n → 500 < n → effLimit (some s) = 500) ∧
    (∀ m, capLimit (capLimit m) = capLimit m) ∧
    (effOffset none = 0) ∧
    (∀ s, jsParseInt s = none → effOffset (some s) = 0) ∧
    (∀ s n, jsParseInt s = some n → n < 0 → effOffset (some s) = 0) ∧
    (∀ s n, jsParseInt s = some n → 0 ≤ n → effOffset (some s) = n) := by
  refine ⟨rfl, ?_, ?_, ?_, ?_, ?_, rfl, ?_, ?_, ?_⟩
  · intro s h; simp [effLimit, h, capLimit]
  · intro s n h hn
    simp only [effLimit, Option.some_bind, h, capLimit]
    by_cases h0 : n = 0 <;> simp only [h0, if_true, if_false] <;> split_ifs <;> omega
  · intro s n h hn
    simp only [effLimit, Option.some_bind, h, capLimit]
    have h0 : ¬ n = 0 := by omega
    simp only [h0, if_false]
    split_ifs <;> omega
  · intro s n h hn
    simp only [effLimit, Option.some_bind, h, capLimit]
    have h0 : ¬ n = 0 := by omega
    simp only [h0, if_false]
    split_ifs <;> omega
  · intro m; simp only [capLimit]; split_ifs <;> omega
  · intro s h; simp [effOffset, h]
  · intro s n h hn
    simp only [effOffset, Option.some_bind, h]
    have h0 : ¬ n = 0 := by omega
    simp only [h0, if_false]
    split_ifs <;> omega
  · intro s n h hn
    simp only [effOffset, Option.some_bind, h]
    by_cases h0 : n = 0 <;> simp only [h0, if_true, if_false] <;> split_ifs <;> omega

/-- Witness for C5 at concrete inputs: a requested limit of 600 is
clamped to 500, a non-numeric limit defaults to 100, and a negative
offset defaults to 0. -/
theorem C5_limit_offset_clamping_witness :
    effLimit (some "600") = 500 ∧ effLimit (some "abc") = 100 ∧
    effOffset (some "-3") = 0 := by
  refine ⟨?_, ?_, ?_⟩
  · have h := C5_limit_offset_clamping.2.2.2.2.1 "600" 600 (by decide) (by decide)
    exact h
  · exact C5_limit_offset_clamping.2.1 "abc" (by decide)
  · exact C5_limit_offset_clamping.2.2.2.2.2.2.2.2.1 "-3" (-3) (by decide) (by decide)

-- --- C6: cache round-trip ---

/-- C6.  Storing `v` under `k` at time `t` and reading at `t'` with
`t' - t ≤ 30000` returns exactly `v` (cache untouched); reading with
`t' - t > 30000` misses and evicts the entry; and a subsequent store
under `k` is visible to reads within the TTL. -/
theorem C6_cache_ttl (c : Cache) (k : String) (v v2 : Jv) (t t' t2 t3 : Int) :
    (t' - t ≤ 30000 →
      getCached (setCached c t k v) t' k = (some v, setCached c t k v)) ∧
    (t' - t > 30000 →
      (getCached (setCached c t k v) t' k).1 = none ∧
      mapGet (getCached (setCached c t k v) t' k).2 k = none) ∧
    (t3 - t2 ≤ 30000 →
      (getCached (setCached (getCached (setCached c t k v) t' k).2 t2 k v2) t3 k).1
        = some v2) := by
  refine ⟨?_, ?_, ?_⟩
  · intro h; exact getCached_setCached_fresh c t t' k v h
  · intro h
    have key : getCached (setCached c t k v) t' k
        = (none, mapDelete (setCached c t k v) k) := by
      unfold getCached setCached
      rw [mapGet_mapSet_self]
      simp only [CACHE_TTL_MS]
      have h' : t' - t > 30000 := h
      simp [h']
    rw [key]
    exact ⟨rfl, mapGet_mapDelete_self _ k⟩
  · intro h
    rw [getCached_setCached_fresh _ t2 t3 k v2 h]

/-- Witness for C6 at a concrete key, value and times 0 / 10 / 40000. -/
theorem C6_cache_ttl_witness :
    getCached (setCached [] 0 "k" (Jv.jstr "v")) 10 "k"
      = (some (Jv.jstr "v"), setCached [] 0 "k" (Jv.jstr "v")) ∧
    (getCached (setCached [] 0 "k" (Jv.jstr "v")) 40000 "k").1 = none ∧
    (getCached (setCached (getCached (setCached [] 0 "k" (Jv.jstr "v")) 40000 "k").2
        40001 "k" (Jv.jstr "w")) 40002 "k").1 = some (Jv.jstr "w") := by
  refine ⟨?_, ?_, ?_⟩
  · exact (C6_cache_ttl [] "k" (Jv.jstr "v") (Jv.jstr "v") 0 10 0 0).1 (by decide)
  · exact ((C6_cache_ttl [] "k" (Jv.jstr "v") (Jv.jstr "v") 0 40000 0 0).2.1 (by decide)).1
  · exact (C6_cache_ttl [] "k" (Jv.jstr "v") (Jv.jstr "w") 0 40000 40001 40002).2.2 (by decide)

-- --- aggregator analysis: builders and a pure mirror of the fold ---

/-- A concrete asset object `{tokenId, amount}` with a string amount,
as the explorer serves them. -/
def mkAsset (tid amt : String) : Jv :=
  .jobj [("tokenId", .jstr tid), ("amount", .jstr amt)]

/-- A concrete UTXO item `{value, assets}` with a string value. -/
def mkItem (v : String) (as_ : List (String × String)) : Jv :=
  .jobj [("value", .jstr v), ("assets", .jarr (as_.map (fun p => mkAsset p.1 p.2)))]

/-- The items of a list of (value, assets) descriptions. -/
def mkItems (items : List (String × List (String × String))) : List Jv :=
  items.map (fun p => mkItem p.1 p.2)

/-- An upstream payload `{items: [...]}` built from descriptions. -/
def mkData (items : List (String × List (String × String))) : Jv :=
  .jobj [("items", .jarr (mkItems items))]

/-- The integer denoted by a value/amount string (meaningful when the
string parses). -/
def valOfStr (s : String) : Int := (stringToBigInt s).getD 0

/-- Pure (never-throwing) mirror of `addAsset` on a description. -/
def addAssetP (m : List (String × Int)) (q : String × String) : List (String × Int) :=
  mapSet m q.1 ((mapGet m q.1).getD 0 + valOfStr q.2)

/-- Pure mirror of one `addItem` step on a description. -/
def addItemP (acc : Int × List (String × Int)) (p : String × List (String × String)) :
    Int × List (String × Int) :=
  (acc.1 + valOfStr p.1, p.2.foldl addAssetP acc.2)

/-- Pure mirror of the whole aggregation loop on descriptions. -/
def summarizeP (items : List (String × List (String × String))) : Int × List (String × Int) :=
  items.foldl addItemP (0, [])

/-- All (tokenId, amount) descriptions of a run, in traversal order. -/
def allAssetsOf (items : List (String × List (String × String))) : List (String × String) :=
  (items.map (fun p => p.2)).flatten

/-- Key list of a token map, in insertion order. -/
def keysOf (m : List (String × Int)) : List String := m.map Prod.fst

/-- Insertion-order deduplication: fold ids into `seen`, appending each
id the first time it occurs. -/
def firstOccur (seen : List String) (ids : List String) : List String :=
  ids.foldl (fun acc i => if i ∈ acc then acc else acc ++ [i]) seen

lemma stringToBigInt_empty : stringToBigInt "" = some 0 := rfl

lemma bigIntOrZero_jstr (s : String) : bigIntOrZero (.jstr s) = stringToBigInt s := by
  by_cases h : s = ""
  · subst h; rfl
  · simp [bigIntOrZero, truthy, h]

lemma valOfStr_eq (s : String) (n : Int) (h : stringToBigInt s = some n) :
    valOfStr s = n := by simp [valOfStr, h]

lemma addAsset_mkAsset (m : List (String × Int)) (tid amt : String)
    (h : (stringToBigInt amt).isSome) :
    addAsset m (mkAsset tid amt) = some (addAssetP m (tid, amt)) := by
  obtain ⟨n, hn⟩ := Option.isSome_iff_exists.mp h
  simp [addAsset, mkAsset, propGet, propGetD, mapGet, jsToString,
        bigIntOrZero_jstr, hn, addAssetP, valOfStr_eq amt n hn]

lemma foldlM_addAsset_mk (as_ : List (String × String)) :
    ∀ m : List (String × Int), (∀ q ∈ as_, (stringToBigInt q.2).isSome) →
    (as_.map (fun p => mkAsset p.1 p.2)).foldlM addAsset m
      = some (as_.foldl addAssetP m) := by
  induction as_ with
  | nil => intro m _; rfl
  | cons q rest ih =>
    intro m h
    have hq : (stringToBigInt q.2).isSome := h q (List.mem_cons_self q rest)
    simp only [List.map_cons, List.foldlM_cons, addAsset_mkAsset m q.1 q.2 hq,
               Option.some_bind, List.foldl_cons]
    exact ih (addAssetP m (q.1, q.2)) (fun q' hq' => h q' (List.mem_cons_of_mem q hq'))

lemma addItem_mkItem (acc : Int × List (String × Int)) (v : String)
    (as_ : List (String × String)) (hv : (stringToBigInt v).isSome)
    (ha : ∀ q ∈ as_, (stringToBigInt q.2).isSome) :
    addItem acc (mkItem v as_) = some (addItemP acc (v, as_)) := by
  obtain ⟨n, hn⟩ := Option.isSome_iff_exists.mp hv
  simp [addItem, mkItem, propGet, mapGet, bigIntOrZero_jstr, hn, jsOr, truthy,
        asArray, foldlM_addAsset_mk as_ acc.2 ha, addItemP, valOfStr_eq v n hn,
        add_comm]

lemma foldlM_addItem_mk (items : List (String × List (String × String))) :
    ∀ acc : Int × List (String × Int),
    (∀ p ∈ items, (stringToBigInt p.1).isSome ∧ ∀ q ∈ p.2, (stringToBigInt q.2).isSome) →
    (mkItems items).foldlM addItem acc = some (items.foldl addItemP acc) := by
  induction items with
  | nil => intro acc _; rfl
  | cons p rest ih =>
    intro acc h
    have hp := h p (List.mem_cons_self p rest)
    simp only [mkItems, List.map_cons, List.foldlM_cons,
               addItem_mkItem acc p.1 p.2 hp.1 hp.2, Option.some_bind, List.foldl_cons]
    exact ih (addItemP acc (p.1, p.2)) (fun p' hp' => h p' (List.mem_cons_of_mem p hp'))

lemma summarizeItems_mk (items : List (String × List (String × String)))
    (h : ∀ p ∈ items, (stringToBigInt p.1).isSome ∧ ∀ q ∈ p.2, (stringToBigInt q.2).isSome) :
    summarizeItems (mkItems items) = some (summarizeP items) := by
  unfold summarizeItems summarizeP
  exact foldlM_addItem_mk items (0, []) h

lemma foldl_addItemP_split (items : List (String × List (String × String))) :
    ∀ t0 : Int, ∀ m0 : List (String × Int),
    items.foldl addItemP (t0, m0)
      = (t0 + (items.map (fun p => valOfStr p.1)).sum,
         (allAssetsOf items).foldl addAssetP m0) := by
  induction items with
  | nil => intro t0 m0; simp [allAssetsOf]
  | cons p rest ih =>
    intro t0 m0
    simp only [List.foldl_cons, addItemP, ih, allAssetsOf, List.map_cons,
               List.flatten_cons, List.foldl_append, List.sum_cons]
    rw [add_assoc]

lemma lookup_foldl_addAssetP (qs : List (String × String)) :
    ∀ m0 : List (String × Int), ∀ tid : String,
    (mapGet (qs.foldl addAssetP m0) tid).getD 0
      = (mapGet m0 tid).getD 0
        + ((qs.filter (fun q => q.1 = tid)).map (fun q => valOfStr q.2)).sum := by
  induction qs with
  | nil => intro m0 tid; simp
  | cons q rest ih =>
    intro m0 tid
    simp only [List.foldl_cons]
    by_cases hq : q.1 = tid
    · rw [ih]
      have hf : List.filter (fun q => decide (q.1 = tid)) (q :: rest)
          = q :: List.filter (fun q => decide (q.1 = tid)) rest := by
        simp [List.filter_cons, hq]
      rw [hf]
      simp only [addAssetP, hq, mapGet_mapSet_self, Option.getD_some,
                 List.map_cons, List.sum_cons]
      ring
    · rw [ih]
      simp only [addAssetP, mapGet_mapSet_ne _ _ _ _ hq, List.filter_cons]
      simp [hq]

lemma keysOf_mapSet (m : List (String × Int)) (k : String) (v : Int) :
    keysOf (mapSet m k v)
      = if k ∈ keysOf m then keysOf m else keysOf m ++ [k] := by
  unfold keysOf
  induction m with
  | nil => simp [mapSet]
  | cons p rest ih =>
    obtain ⟨k', v'⟩ := p
    simp only [mapSet, List.map_cons]
    by_cases h : k' = k
    · subst h
      rw [if_pos rfl]
      simp only [List.map_cons]
      rw [if_pos (List.mem_cons_self _ _)]
    · rw [if_neg h]
      simp only [List.map_cons]
      have hne : ¬ (k = k') := fun hh => h hh.symm
      by_cases h2 : k ∈ List.map Prod.fst rest
      · rw [ih, if_pos h2, if_pos (List.mem_cons.mpr (Or.inr h2))]
      · rw [ih, if_neg h2, if_neg (by simp [List.mem_cons, hne, h2])]
        simp [List.cons_append]

lemma keys_foldl_addAssetP (qs : List (String × String)) :
    ∀ m0 : List (String × Int),
    keysOf (qs.foldl addAssetP m0) = firstOccur (keysOf m0) (qs.map (fun q => q.1)) := by
  induction qs with
  | nil => intro m0; rfl
  | cons q rest ih =>
    intro m0
    simp only [List.foldl_cons, List.map_cons, firstOccur, List.foldl_cons]
    rw [ih]
    simp only [addAssetP, keysOf_mapSet, firstOccur]

lemma foldlM_addItem_bad (its : List Jv) (bad : Jv)
    (hbad : ∀ acc, addItem acc bad = none) :
    ∀ acc, bad ∈ its → its.foldlM addItem acc = none := by
  induction its with
  | nil => intro acc h; cases h
  | cons a rest ih =>
    intro acc hmem
    rcases List.mem_cons.mp hmem with h | h
    · subst h
      simp [List.foldlM_cons, hbad acc]
    · simp only [List.foldlM_cons]
      cases ha : addItem acc a with
      | none => rfl
      | some acc' => exact ih acc' h

lemma addItem_mkItem_badValue (s : String) (as_ : List (String × String))
    (h2 : stringToBigInt s = none) :
    ∀ acc, addItem acc (mkItem s as_) = none := by
  intro acc
  simp [addItem, mkItem, propGet, mapGet, bigIntOrZero_jstr, h2]

lemma summaryItemsOf_mkData (its : List Jv) :
    summaryItemsOf (.jobj [("items", .jarr its)]) = .jarr its := by
  simp [summaryItemsOf, truthy, propGetD, propGet, mapGet]

lemma summaryCompute_mkData (items : List (String × List (String × String)))
    (h : ∀ p ∈ items, (stringToBigInt p.1).isSome ∧ ∀ q ∈ p.2, (stringToBigInt q.2).isSome) :
    summaryCompute (mkData items)
      = some (mkItems items, (summarizeP items).1, (summarizeP items).2) := by
  unfold summaryCompute mkData
  rw [summaryItemsOf_mkData]
  simp [asArray, Option.bind_eq_bind, summarizeItems_mk items h]

-- --- C1: exact arbitrary-precision aggregation ---

/-- C1.  On any item sequence whose `value` and asset `amount` fields
are integer strings, the summary aggregation succeeds and computes the
total and the per-token sums as exact integers (the embedding's
arithmetic is ℤ, mirroring BigInt: no floating-point accumulation
exists anywhere in the computation); in particular two values of
9007199254740993 = 2^53 + 1 — not representable exactly as a double sum
— yield exactly the string "18014398509481986". -/
theorem C1_aggregation_exact (items : List (String × List (String × String)))
    (h : ∀ p ∈ items, (stringToBigInt p.1).isSome ∧ ∀ q ∈ p.2, (stringToBigInt q.2).isSome) :
    summarizeItems (mkItems items) = some (summarizeP items) ∧
    (summarizeP items).1 = (items.map (fun p => valOfStr p.1)).sum ∧
    (∀ tid, (mapGet (summarizeP items).2 tid).getD 0
      = (((allAssetsOf items).filter (fun q => q.1 = tid)).map (fun q => valOfStr q.2)).sum) ∧
    propGet (mkSummaryResult "a" 0
        (mkData [("9007199254740993", []), ("9007199254740993", [])]) [] none).resp.body
        "totalNanoErg"
      = some (.jstr "18014398509481986") := by
  refine ⟨summarizeItems_mk items h, ?_, ?_, by rfl⟩
  · unfold summarizeP
    rw [foldl_addItemP_split]
    simp
  · intro tid
    unfold summarizeP
    rw [foldl_addItemP_split]
    simp only
    rw [lookup_foldl_addAssetP]
    simp [mapGet]

/-- Witness for C1: the doubled 2^53+1 input satisfies the hypothesis
and sums to exactly 18014398509481986. -/
theorem C1_aggregation_exact_witness :
    summarizeItems (mkItems [("9007199254740993", []), ("9007199254740993", [])])
      = some (summarizeP [("9007199254740993", []), ("9007199254740993", [])]) ∧
    (summarizeP [("9007199254740993", []), ("9007199254740993", [])]).1
      = 18014398509481986 := by
  have h := C1_aggregation_exact
    [("9007199254740993", []), ("9007199254740993", [])] (by decide)
  refine ⟨h.1, ?_⟩
  rw [h.2.1]
  decide

-- --- C2: summary output shape ---

/-- C2.  The summary aggregator adds every item's `value` into the
total (an absent value contributes 0), merges asset amounts per
`tokenId` keeping first-occurrence order, reports `tokenCount` as the
number of distinct token ids and `utxoCount` as the number of items,
and serializes the total and every amount as decimal strings; the
3-UTXO example and the T1 merge example evaluate as the spec states. -/
theorem C2_summary_aggregation (items : List (String × List (String × String)))
    (h : ∀ p ∈ items, (stringToBigInt p.1).isSome ∧ ∀ q ∈ p.2, (stringToBigInt q.2).isSome) :
    summaryCompute (mkData items)
      = some (mkItems items, (summarizeP items).1, (summarizeP items).2) ∧
    (summarizeP items).1 = (items.map (fun p => valOfStr p.1)).sum ∧
    keysOf (summarizeP items).2 = firstOccur [] ((allAssetsOf items).map (fun q => q.1)) ∧
    (∀ tid, (mapGet (summarizeP items).2 tid).getD 0
      = (((allAssetsOf items).filter (fun q => q.1 = tid)).map (fun q => valOfStr q.2)).sum) ∧
    (∀ addr now c u, mkSummaryResult addr now (mkData items) c u
      = ⟨⟨200, summaryBody addr now (mkItems items) (summarizeP items).1 (summarizeP items).2⟩,
         c, u⟩) ∧
    (mkItems items).length = items.length ∧
    summarizeItems [.jobj []] = some (0, []) ∧
    propGet (mkSummaryResult "a" 0 (mkData [("1", [("T1", "5")]), ("2", [("T1", "7")])])
        [] none).resp.body "tokens"
      = some (.jarr [.jobj [("tokenId", .jstr "T1"), ("amount", .jstr "12")]]) ∧
    propGet (mkSummaryResult "a" 0 (mkData [("1", [("T1", "5")]), ("2", [("T1", "7")])])
        [] none).resp.body "tokenCount" = some (.jnum 1) ∧
    propGet (mkSummaryResult "a" 0
        (mkData [("1000000000", []), ("2000000000", []), ("500000000", [])]) [] none).resp.body
        "totalNanoErg" = some (.jstr "3500000000") ∧
    propGet (mkSummaryResult "a" 0
        (mkData [("1000000000", []), ("2000000000", []), ("500000000", [])]) [] none).resp.body
        "utxoCount" = some (.jnum 3) ∧
    propGet (mkSummaryResult "a" 0
        (mkData [("1000000000", []), ("2000000000", []), ("500000000", [])]) [] none).resp.body
        "tokenCount" = some (.jnum 0) := by
  refine ⟨summaryCompute_mkData items h, ?_, ?_, ?_, ?_, List.length_map items _,
          by rfl, by rfl, by rfl, by rfl, by rfl, by rfl⟩
  · unfold summarizeP
    rw [foldl_addItemP_split]
    simp
  · unfold summarizeP
    rw [foldl_addItemP_split]
    simp only
    rw [keys_foldl_addAssetP]
    rfl
  · intro tid
    unfold summarizeP
    rw [foldl_addItemP_split]
    simp only
    rw [lookup_foldl_addAssetP]
    simp [mapGet]
  · intro addr now c u
    simp [mkSummaryResult, summaryCompute_mkData items h]

/-- Witness for C2: the token-merge example satisfies the hypothesis,
and its token map has the single key T1. -/
theorem C2_summary_aggregation_witness :
    summaryCompute (mkData [("1", [("T1", "5")]), ("2", [("T1", "7")])])
      = some (mkItems [("1", [("T1", "5")]), ("2", [("T1", "7")])],
              (summarizeP [("1", [("T1", "5")]), ("2", [("T1", "7")])]).1,
              (summarizeP [("1", [("T1", "5")]), ("2", [("T1", "7")])]).2) ∧
    keysOf (summarizeP [("1", [("T1", "5")]), ("2", [("T1", "7")])]).2 = ["T1"] := by
  have h := C2_summary_aggregation [("1", [("T1", "5")]), ("2", [("T1", "7")])] (by decide)
  exact ⟨h.1, by rw [h.2.2.1]; rfl⟩

-- --- C10: a malformed value/amount string makes the summary route 500 ---

lemma summaryCompute_badValue (pre post : List Jv) (s : String)
    (as_ : List (String × String)) (hbad : stringToBigInt s = none) :
    summaryCompute (Jv.jobj [("items", .jarr (pre ++ mkItem s as_ :: post))]) = none := by
  unfold summaryCompute
  rw [summaryItemsOf_mkData]
  have h2 : summarizeItems (pre ++ mkItem s as_ :: post) = none := by
    unfold summarizeItems
    exact foldlM_addItem_bad _ (mkItem s as_) (addItem_mkItem_badValue s as_ hbad) (0, [])
      (List.mem_append.mpr (Or.inr (List.mem_cons_self _ _)))
  simp [asArray, Option.bind_eq_bind, h2]

lemma addAsset_mkAsset_bad (tid s : String) (hbad : stringToBigInt s = none) :
    ∀ m, addAsset m (mkAsset tid s) = none := by
  intro m
  simp [addAsset, mkAsset, propGet, propGetD, mapGet, bigIntOrZero_jstr, hbad]

lemma addItem_mkItem_badAmount (v tid s : String) (apre apost : List (String × String))
    (hv : (stringToBigInt v).isSome) (hbad : stringToBigInt s = none) :
    ∀ acc, addItem acc (mkItem v (apre ++ (tid, s) :: apost)) = none := by
  intro acc
  obtain ⟨n, hn⟩ := Option.isSome_iff_exists.mp hv
  simp [addItem, mkItem, propGet, mapGet, bigIntOrZero_jstr, hn, jsOr, truthy, asArray]
  intro a
  cases h1 : List.foldlM addAsset acc.2 (List.map (fun p => mkAsset p.1 p.2) apre) with
  | none => simp
  | some m1 => simp [addAsset_mkAsset_bad tid s hbad m1]

lemma summaryCompute_badAmount (pre post : List Jv) (v tid s : String)
    (apre apost : List (String × String))
    (hv : (stringToBigInt v).isSome) (hbad : stringToBigInt s = none) :
    summaryCompute
        (Jv.jobj [("items", .jarr (pre ++ mkItem v (apre ++ (tid, s) :: apost) :: post))])
      = none := by
  unfold summaryCompute
  rw [summaryItemsOf_mkData]
  have h2 : summarizeItems (pre ++ mkItem v (apre ++ (tid, s) :: apost) :: post) = none := by
    unfold summarizeItems
    exact foldlM_addItem_bad _ _ (addItem_mkItem_badAmount v tid s apre apost hv hbad) (0, [])
      (List.mem_append.mpr (Or.inr (List.mem_cons_self _ _)))
  simp [asArray, Option.bind_eq_bind, h2]

/-- C10.  When some fetched UTXO item carries a truthy `value`, or some
asset carries a truthy `amount`, that is not a valid integer literal —
e.g. the string "1.5" — the BigInt conversion throws, the whole
aggregation aborts (no partial aggregate), and the summary route
answers 500 with its generic error envelope (which carries no summary
fields).  The first and fourth conjuncts are the malformed-`value`
branch; the second and fifth are the malformed-asset-`amount` branch,
where the item's own value parses fine and the failure comes from
`BigInt(a.amount || 0)` in the inner loop. -/
theorem C10_bad_literal_500 (addr : String) (now : Int) (c : Cache) (u : Option String)
    (pre post : List Jv) (s : String)
    (htr : truthy (.jstr s) = true) (hbad : stringToBigInt s = none) :
    (∀ as_ : List (String × String),
      mkSummaryResult addr now (Jv.jobj [("items", .jarr (pre ++ mkItem s as_ :: post))]) c u
        = ⟨⟨500, summaryErrBody⟩, c, u⟩) ∧
    (∀ (v tid : String) (apre apost : List (String × String)),
      (stringToBigInt v).isSome →
      mkSummaryResult addr now
          (Jv.jobj [("items", .jarr (pre ++ mkItem v (apre ++ (tid, s) :: apost) :: post))]) c u
        = ⟨⟨500, summaryErrBody⟩, c, u⟩) ∧
    propGet summaryErrBody "totalNanoErg" = some Jv.jnull ∧
    (normalizeAddress addr ≠ "" → ∀ as_ : List (String × String),
      (summaryHandler
          (fun _ => .ok 200 "" (some (Jv.jobj [("items", .jarr (pre ++ mkItem s as_ :: post))])))
          [] now addr).resp
        = ⟨500, summaryErrBody⟩) ∧
    (normalizeAddress addr ≠ "" →
      ∀ (v tid : String) (apre apost : List (String × String)),
      (stringToBigInt v).isSome →
      (summaryHandler
          (fun _ => .ok 200 ""
            (some (Jv.jobj
              [("items", .jarr (pre ++ mkItem v (apre ++ (tid, s) :: apost) :: post))])))
          [] now addr).resp
        = ⟨500, summaryErrBody⟩) := by
  refine ⟨?_, ?_, by rfl, ?_, ?_⟩
  · intro as_
    have hfail := summaryCompute_badValue pre post s as_ hbad
    simp [mkSummaryResult, hfail]
  · intro v tid apre apost hv
    have hfail := summaryCompute_badAmount pre post v tid s apre apost hv hbad
    simp [mkSummaryResult, hfail]
  · intro haddr as_
    have hfail := summaryCompute_badValue pre post s as_ hbad
    unfold summaryHandler
    rw [if_neg haddr]
    simp only [getCached, mapGet, Option.getD_none, truthy, Bool.false_eq_true, if_false]
    simp [mkSummaryResult, hfail]
  · intro haddr v tid apre apost hv
    have hfail := summaryCompute_badAmount pre post v tid s apre apost hv hbad
    unfold summaryHandler
    rw [if_neg haddr]
    simp only [getCached, mapGet, Option.getD_none, truthy, Bool.false_eq_true, if_false]
    simp [mkSummaryResult, hfail]

/-- Witness for C10: the string "1.5" is truthy and fails the
conversion, both as an item's `value` and as an asset's `amount` (the
latter with the item's own value "1" parsing fine); in each case the
summary handler answers 500. -/
theorem C10_bad_literal_500_witness :
    mkSummaryResult "a" 0 (Jv.jobj [("items", .jarr [mkItem "1.5" []])]) [] none
      = ⟨⟨500, summaryErrBody⟩, [], none⟩ ∧
    mkSummaryResult "a" 0 (Jv.jobj [("items", .jarr [mkItem "1" [("T1", "1.5")]])]) [] none
      = ⟨⟨500, summaryErrBody⟩, [], none⟩ ∧
    (summaryHandler (fun _ => .ok 200 "" (some (Jv.jobj [("items", .jarr [mkItem "1.5" []])])))
        [] 0 "a").resp = ⟨500, summaryErrBody⟩ ∧
    (summaryHandler
        (fun _ => .ok 200 "" (some (Jv.jobj [("items", .jarr [mkItem "1" [("T1", "1.5")]])])))
        [] 0 "a").resp = ⟨500, summaryErrBody⟩ := by
  have h := C10_bad_literal_500 "a" 0 [] none [] [] "1.5" (by decide) (by decide)
  exact ⟨h.1 [], h.2.1 "1" "T1" [] [] (by decide), h.2.2.2.1 (by decide) [],
         h.2.2.2.2 (by decide) "1" "T1" [] [] (by decide)⟩

-- --- C8: response-shape normalization ---

/-- C8 (amended).  The UTXO-route normalization maps a bare array to
itself; an object whose `items` field holds an array (more generally,
any truthy `items`) to that field; an object without `items`, or whose
`items` field is falsy, to the object unchanged; and primitive payloads
to themselves — while a null payload makes the property access throw.
Bare array and `{items: [...]}` payloads yield the identical items
array. -/
theorem C8_normalize_shapes :
    (∀ xs, normalizeUtxo (.jarr xs) = some (.jarr xs)) ∧
    (∀ fields arr, mapGet fields "items" = some (Jv.jarr arr) →
      normalizeUtxo (.jobj fields) = some (.jarr arr)) ∧
    (∀ fields, mapGet fields "items" = none →
      normalizeUtxo (.jobj fields) = some (.jobj fields)) ∧
    (∀ fields v, mapGet fields "items" = some v → truthy v = false →
      normalizeUtxo (.jobj fields) = some (.jobj fields)) ∧
    (∀ n, normalizeUtxo (.jnum n) = some (.jnum n)) ∧
    (∀ s, normalizeUtxo (.jstr s) = some (.jstr s)) ∧
    (∀ b, normalizeUtxo (.jbool b) = some (.jbool b)) ∧
    normalizeUtxo (.jarr [.jobj [("boxId", .jstr "a")]])
      = normalizeUtxo (.jobj [("items", .jarr [.jobj [("boxId", .jstr "a")]])]) ∧
    normalizeUtxo Jv.jnull = none := by
  refine ⟨fun xs => rfl, ?_, ?_, ?_, fun n => rfl, ?_, ?_, by rfl, by rfl⟩
  · intro fields arr hm
    simp [normalizeUtxo, isArr, propGet, hm, truthy]
  · intro fields hm
    simp [normalizeUtxo, isArr, propGet, hm, truthy]
  · intro fields v hm hv
    simp [normalizeUtxo, isArr, propGet, hm, hv]
  · intro s
    by_cases h : s = "" <;> simp [normalizeUtxo, isArr, propGet, truthy, h]
  · intro b
    cases b <;> simp [normalizeUtxo, isArr, propGet, truthy]

/-- Witness for C8: a concrete object with an array-valued `items`
field normalizes to that array. -/
theorem C8_normalize_shapes_witness :
    normalizeUtxo (.jobj [("items", .jarr [.jobj [("boxId", .jstr "a")]])])
      = some (.jarr [.jobj [("boxId", .jstr "a")]]) :=
  C8_normalize_shapes.2.1 [("items", .jarr [.jobj [("boxId", .jstr "a")]])]
    [.jobj [("boxId", .jstr "a")]] rfl

/-- Counterexample for C8 as stated: the payload `{items: null}` has an
`items` field, yet the code returns the whole payload, not the field
(`json.items || json` falls through on a falsy `items`). -/
theorem C8_counterexample :
    normalizeUtxo (Jv.jobj [("items", Jv.jnull)]) = some (Jv.jobj [("items", Jv.jnull)]) ∧
    normalizeUtxo (Jv.jobj [("items", Jv.jnull)]) ≠ some Jv.jnull := by
  refine ⟨by rfl, ?_⟩
  intro h
  exact Jv.noConfusion (Option.some.inj h)

-- --- C9: identifier whitespace handling ---

lemma trimChars_no_space (cs : List Char) (h : ∀ c ∈ cs, isJsSpace c = false) :
    trimChars cs = cs := by
  unfold trimChars
  have h1 : cs.dropWhile isJsSpace = cs := by
    cases cs with
    | nil => rfl
    | cons a l => simp [List.dropWhile_cons, h a (List.mem_cons_self a l)]
  rw [h1]
  have h2 : cs.reverse.dropWhile isJsSpace = cs.reverse := by
    cases hrev : cs.reverse with
    | nil => rfl
    | cons a l =>
      have ha : a ∈ cs := by
        rw [← List.mem_reverse, hrev]
        exact List.mem_cons_self a l
      simp [List.dropWhile_cons, h a ha]
  rw [h2, List.reverse_reverse]

lemma normalizeAddress_removes_all (p : String) : normalizeAddress p = removeAllWs p := by
  unfold normalizeAddress jsTrim removeAllWs
  congr 1
  apply trimChars_no_space
  intro c hc
  have hmem : c ∈ p.toList.filter (fun c => !isJsSpace c) := hc
  have := (List.mem_filter.mp hmem).2
  simpa using this

/-- C9 (amended).  The address parameter is stripped of all whitespace
(interior included); the token id and tx id are only trimmed of leading
and trailing whitespace; on every route an identifier that is empty
after its normalization produces an immediate 400 with no upstream call
and the cache untouched. -/
theorem C9_empty_identifier_400 :
    (∀ p, normalizeAddress p = removeAllWs p) ∧
    (∀ p, ∀ c ∈ (normalizeAddress p).toList, isJsSpace c = false) ∧
    (∀ p, normalizeId p = jsTrim p) ∧
    (∀ f c now p lq oq, normalizeAddress p = "" →
      utxoHandler f c now p lq oq
        = ⟨⟨400, .jobj [("error", .jstr "آدرس نامعتبر است")]⟩, c, none⟩) ∧
    (∀ f c now p, normalizeAddress p = "" →
      summaryHandler f c now p
        = ⟨⟨400, .jobj [("error", .jstr "آدرس لازم است")]⟩, c, none⟩) ∧
    (∀ f c now p, normalizeId p = "" →
      assetHandler f c now p
        = ⟨⟨400, .jobj [("error", .jstr "tokenId لازم است")]⟩, c, none⟩) ∧
    (∀ f c now p, normalizeId p = "" →
      txHandler f c now p
        = ⟨⟨400, .jobj [("error", .jstr "txId لازم است")]⟩, c, none⟩) := by
  refine ⟨normalizeAddress_removes_all, ?_, fun p => rfl, ?_, ?_, ?_, ?_⟩
  · intro p c hc
    rw [normalizeAddress_removes_all] at hc
    have hmem : c ∈ p.toList.filter (fun c => !isJsSpace c) := hc
    have := (List.mem_filter.mp hmem).2
    simpa using this
  · intro f c now p lq oq h
    simp [utxoHandler, h]
  · intro f c now p h
    simp [summaryHandler, h]
  · intro f c now p h
    simp [assetHandler, h]
  · intro f c now p h
    simp [txHandler, h]

/-- Witness for C9: an all-whitespace address and token id both yield
the immediate 400 with the cache untouched and no upstream URL. -/
theorem C9_empty_identifier_400_witness :
    utxoHandler (fun _ => FetchResult.netErr) [] 0 " " none none
      = ⟨⟨400, .jobj [("error", .jstr "آدرس نامعتبر است")]⟩, [], none⟩ ∧
    assetHandler (fun _ => FetchResult.netErr) [] 0 " "
      = ⟨⟨400, .jobj [("error", .jstr "tokenId لازم است")]⟩, [], none⟩ :=
  ⟨C9_empty_identifier_400.2.2.2.1 (fun _ => FetchResult.netErr) [] 0 " " none none (by decide),
   C9_empty_identifier_400.2.2.2.2.2.1 (fun _ => FetchResult.netErr) [] 0 " " (by decide)⟩

/-- Counterexample for C9 as stated: the token id is not stripped of
all whitespace — an interior space survives `.trim()` and reaches the
upstream URL, unlike on the address route. -/
theorem C9_counterexample :
    normalizeId " a b " = "a b" ∧
    removeAllWs " a b " = "ab" ∧
    ("a b" : String) ≠ "ab" ∧
    (assetHandler (fun _ => FetchResult.netErr) [] 0 " a b ").upstreamUrl
      = some (assetUrl "a b") ∧
    assetUrl "a b" ≠ assetUrl "ab" := by
  refine ⟨by decide, by decide, by decide, by decide, by decide⟩

-- --- C3 / C4: upstream error mapping ---

lemma respOk_false_of_ge_400 (s : Nat) (hs : 400 ≤ s) : respOk s = false := by
  simp only [respOk]
  have : ¬ s < 300 := by omega
  simp [this]

/-- C4 (amended).  A timeout (`AbortError`) yields 504 on the UTXO
route only; on the asset, tx, and summary routes the generic catch
swallows it and the caller gets 500; network-level failures yield 500
everywhere. -/
theorem C4_timeout_and_network_mapping (addr tid txid : String) (lq oq : Option String)
    (haddr : normalizeAddress addr ≠ "") (hid : normalizeId tid ≠ "")
    (htx : normalizeId txid ≠ "") :
    (utxoHandler (fun _ => FetchResult.abortErr) [] 0 addr lq oq).resp.status = 504 ∧
    (utxoHandler (fun _ => FetchResult.netErr) [] 0 addr lq oq).resp.status = 500 ∧
    (assetHandler (fun _ => FetchResult.abortErr) [] 0 tid).resp.status = 500 ∧
    (assetHandler (fun _ => FetchResult.netErr) [] 0 tid).resp.status = 500 ∧
    (txHandler (fun _ => FetchResult.abortErr) [] 0 txid).resp.status = 500 ∧
    (txHandler (fun _ => FetchResult.netErr) [] 0 txid).resp.status = 500 ∧
    (summaryHandler (fun _ => FetchResult.abortErr) [] 0 addr).resp.status = 500 ∧
    (summaryHandler (fun _ => FetchResult.netErr) [] 0 addr).resp.status = 500 := by
  refine ⟨?_, ?_, ?_, ?_, ?_, ?_, ?_, ?_⟩ <;>
    simp [utxoHandler, assetHandler, txHandler, summaryHandler, haddr, hid, htx,
          getCached, mapGet, truthy]

/-- Witness for C4 at concrete identifiers. -/
theorem C4_timeout_and_network_mapping_witness :
    (utxoHandler (fun _ => FetchResult.abortErr) [] 0 "a" none none).resp.status = 504 ∧
    (assetHandler (fun _ => FetchResult.abortErr) [] 0 "t").resp.status = 500 ∧
    (summaryHandler (fun _ => FetchResult.abortErr) [] 0 "a").resp.status = 500 := by
  have h := C4_timeout_and_network_mapping "a" "t" "x" none none
    (by decide) (by decide) (by decide)
  exact ⟨h.1, h.2.2.1, h.2.2.2.2.2.2.1⟩

/-- Counterexample for C4 as stated: on the asset route a timeout
(AbortError) is answered with 500, not 504 — the route's catch clause
has no AbortError branch. -/
theorem C4_counterexample :
    (assetHandler (fun _ => FetchResult.abortErr) [] 0 "tid").resp.status = 500 ∧
    (assetHandler (fun _ => FetchResult.abortErr) [] 0 "tid").resp.status ≠ 504 := by
  exact ⟨by rfl, by decide⟩

/-- C3 (amended).  On the UTXO, asset, and tx routes a non-2xx upstream
status `s` is mapped to 502 when `s ≥ 500` and forwarded verbatim when
`s` is a 4xx, with the upstream status and the body truncated to 1000
characters in the error payload; the summary route, by contrast, never
inspects the upstream status: whenever the upstream body parses as
JSON, the route proceeds to aggregate it as if the request had
succeeded. -/
theorem C3_upstream_status_mapping (s : Nat) (txt : String) (j : Option Jv)
    (addr tid txid : String) (lq oq : Option String)
    (haddr : normalizeAddress addr ≠ "") (hid : normalizeId tid ≠ "")
    (htx : normalizeId txid ≠ "") (hs : 400 ≤ s) :
    (utxoHandler (fun _ => FetchResult.ok s txt j) [] 0 addr lq oq).resp
      = ⟨if 500 ≤ s then 502 else s,
         .jobj [("error", .jstr "خطا از Explorer"), ("status", .jnum s),
                ("body", .jstr (truncate1000 txt))]⟩ ∧
    (assetHandler (fun _ => FetchResult.ok s txt j) [] 0 tid).resp
      = ⟨if 500 ≤ s then 502 else s,
         .jobj [("error", .jstr "Explorer token API error"), ("status", .jnum s),
                ("body", .jstr (truncate1000 txt))]⟩ ∧
    (txHandler (fun _ => FetchResult.ok s txt j) [] 0 txid).resp
      = ⟨if 500 ≤ s then 502 else s,
         .jobj [("error", .jstr "Explorer tx API error"), ("status", .jnum s),
                ("body", .jstr (truncate1000 txt))]⟩ ∧
    (∀ data, j = some data →
      summaryHandler (fun _ => FetchResult.ok s txt j) [] 0 addr
        = mkSummaryResult (normalizeAddress addr) 0 data []
            (some (summaryUrl (normalizeAddress addr)))) := by
  have hok := respOk_false_of_ge_400 s hs
  refine ⟨?_, ?_, ?_, ?_⟩
  · simp only [utxoHandler]
    rw [if_neg haddr]
    simp [getCached, mapGet, truthy, hok, ge_iff_le]
  · simp only [assetHandler]
    rw [if_neg hid]
    simp [getCached, mapGet, truthy, hok, ge_iff_le]
  · simp only [txHandler]
    rw [if_neg htx]
    simp [getCached, mapGet, truthy, hok, ge_iff_le]
  · intro data hj
    subst hj
    simp only [summaryHandler]
    rw [if_neg haddr]
    simp [getCached, mapGet, truthy]

/-- Witness for C3: an upstream 503 becomes 502 and an upstream 404 is
forwarded on the asset route; the truncation and status echo are
visible in the payload. -/
theorem C3_upstream_status_mapping_witness :
    (assetHandler (fun _ => FetchResult.ok 503 "oops" none) [] 0 "t").resp
      = ⟨502, .jobj [("error", .jstr "Explorer token API error"), ("status", .jnum 503),
                     ("body", .jstr "oops")]⟩ ∧
    (assetHandler (fun _ => FetchResult.ok 404 "missing" none) [] 0 "t").resp.status = 404 := by
  have h1 := C3_upstream_status_mapping 503 "oops" none "a" "t" "x" none none
    (by decide) (by decide) (by decide) (by decide)
  have h2 := C3_upstream_status_mapping 404 "missing" none "a" "t" "x" none none
    (by decide) (by decide) (by decide) (by decide)
  constructor
  · rw [h1.2.1]
    rfl
  · rw [h2.2.1]
    rfl

/-- Counterexample for C3 as stated: the summary route answers 200 —
not 502 — when the upstream replies 503 with a JSON body, because it
never checks the upstream status. -/
theorem C3_counterexample :
    (summaryHandler
        (fun _ => FetchResult.ok 503 "unavailable" (some (Jv.jobj [("items", Jv.jarr [])])))
        [] 0 "addr").resp.status = 200 ∧
    (summaryHandler
        (fun _ => FetchResult.ok 503 "unavailable" (some (Jv.jobj [("items", Jv.jarr [])])))
        [] 0 "addr").resp.status ≠ 502 := by
  exact ⟨by rfl, by decide⟩

-- --- C7: cache population on miss, hit on repeat ---

lemma utxoHandler_store (f : String → FetchResult) (t : Int) (addr : String)
    (lq oq : Option String) (txt : String) (j items : Jv)
    (haddr : normalizeAddress addr ≠ "")
    (hf : ∀ u, f u = .ok 200 txt (some j))
    (hnorm : normalizeUtxo j = some items) :
    utxoHandler f [] t addr lq oq
      = ⟨⟨200, .jobj [("fetchedAt", .jnum t), ("cached", .jbool false),
                      ("from", .jstr (utxoUrl (normalizeAddress addr) (effLimit lq) (effOffset oq))),
                      ("items", items)]⟩,
         [(utxoUrl (normalizeAddress addr) (effLimit lq) (effOffset oq),
           ⟨.jobj [("items", items), ("raw", j)], t⟩)],
         some (utxoUrl (normalizeAddress addr) (effLimit lq) (effOffset oq))⟩ := by
  simp only [utxoHandler]
  rw [if_neg haddr]
  simp [getCached, mapGet, truthy, hf, hnorm, respOk, setCached, mapSet]

lemma utxoHandler_hit (f : String → FetchResult) (t t' : Int) (addr : String)
    (lq oq : Option String) (stored : Jv)
    (haddr : normalizeAddress addr ≠ "")
    (hstored : truthy stored = true)
    (htime : t' - t ≤ 30000) :
    utxoHandler f [(utxoUrl (normalizeAddress addr) (effLimit lq) (effOffset oq), ⟨stored, t⟩)]
        t' addr lq oq
      = ⟨⟨200, .jobj [("fetchedAt", .jnum t'), ("cached", .jbool true),
                      ("from", .jstr (utxoUrl (normalizeAddress addr) (effLimit lq) (effOffset oq))),
                      ("items", jsOr (propGetD stored "items") (.jarr []))]⟩,
         [(utxoUrl (normalizeAddress addr) (effLimit lq) (effOffset oq), ⟨stored, t⟩)],
         none⟩ := by
  simp only [utxoHandler]
  rw [if_neg haddr]
  have hno : ¬ (t' - t > CACHE_TTL_MS) := by simp only [CACHE_TTL_MS]; omega
  simp [getCached, mapGet, hno, hstored]

lemma assetHandler_store (f : String → FetchResult) (t : Int) (tid : String)
    (txt : String) (j : Jv)
    (hid : normalizeId tid ≠ "")
    (hf : ∀ u, f u = .ok 200 txt (some j)) :
    assetHandler f [] t tid
      = ⟨⟨200, .jobj [("fetchedAt", .jnum t), ("cached", .jbool false),
                      ("from", .jstr (assetUrl (normalizeId tid))), ("item", j)]⟩,
         [(assetUrl (normalizeId tid), ⟨j, t⟩)],
         some (assetUrl (normalizeId tid))⟩ := by
  simp only [assetHandler]
  rw [if_neg hid]
  simp [getCached, mapGet, truthy, hf, respOk, setCached, mapSet]

lemma assetHandler_hit (f : String → FetchResult) (t t' : Int) (tid : String) (stored : Jv)
    (hid : normalizeId tid ≠ "")
    (hstored : truthy stored = true)
    (htime : t' - t ≤ 30000) :
    assetHandler f [(assetUrl (normalizeId tid), ⟨stored, t⟩)] t' tid
      = ⟨⟨200, .jobj [("fetchedAt", .jnum t'), ("cached", .jbool true),
                      ("from", .jstr (assetUrl (normalizeId tid))), ("item", stored)]⟩,
         [(assetUrl (normalizeId tid), ⟨stored, t⟩)],
         none⟩ := by
  simp only [assetHandler]
  rw [if_neg hid]
  have hno : ¬ (t' - t > CACHE_TTL_MS) := by simp only [CACHE_TTL_MS]; omega
  simp [getCached, mapGet, hno, hstored]

lemma txHandler_store (f : String → FetchResult) (t : Int) (txid : String)
    (txt : String) (j : Jv)
    (htx : normalizeId txid ≠ "")
    (hf : ∀ u, f u = .ok 200 txt (some j)) :
    txHandler f [] t txid
      = ⟨⟨200, .jobj [("fetchedAt", .jnum t), ("cached", .jbool false),
                      ("from", .jstr (txUrl (normalizeId txid))), ("item", j)]⟩,
         [(txUrl (normalizeId txid), ⟨j, t⟩)],
         some (txUrl (normalizeId txid))⟩ := by
  simp only [txHandler]
  rw [if_neg htx]
  simp [getCached, mapGet, truthy, hf, respOk, setCached, mapSet]

lemma txHandler_hit (f : String → FetchResult) (t t' : Int) (txid : String) (stored : Jv)
    (htx : normalizeId txid ≠ "")
    (hstored : truthy stored = true)
    (htime : t' - t ≤ 30000) :
    txHandler f [(txUrl (normalizeId txid), ⟨stored, t⟩)] t' txid
      = ⟨⟨200, .jobj [("fetchedAt", .jnum t'), ("cached", .jbool true),
                      ("from", .jstr (txUrl (normalizeId txid))), ("item", stored)]⟩,
         [(txUrl (normalizeId txid), ⟨stored, t⟩)],
         none⟩ := by
  simp only [txHandler]
  rw [if_neg htx]
  have hno : ¬ (t' - t > CACHE_TTL_MS) := by simp only [CACHE_TTL_MS]; omega
  simp [getCached, mapGet, hno, hstored]

lemma summaryHandler_no_store (f : String → FetchResult) (t : Int) (addr : String)
    (txt : String) (j : Jv)
    (haddr : normalizeAddress addr ≠ "")
    (hf : ∀ u, f u = .ok 200 txt (some j)) :
    (summaryHandler f [] t addr).cache = [] := by
  simp only [summaryHandler]
  rw [if_neg haddr]
  simp only [getCached, mapGet, Option.getD_none, truthy, Bool.false_eq_true, if_false, hf]
  cases h : summaryCompute j <;> simp [mkSummaryResult, h]

/-- C7 (amended).  On the UTXO, asset, and tx routes a cache miss
followed by an upstream 200 stores the normalized payload in the cache
keyed by the resolved URL, and an identical request within the TTL is
answered 200 from the cache with no upstream call (for the asset/tx
routes this needs the stored JSON to be truthy, which every object
payload is); the summary route reads the cache but never stores into
it. -/
theorem C7_store_then_hit (t t' : Int) (addr tid txid : String) (lq oq : Option String)
    (txt : String) (j items : Jv) (f : String → FetchResult)
    (haddr : normalizeAddress addr ≠ "") (hid : normalizeId tid ≠ "")
    (htx : normalizeId txid ≠ "")
    (hf : ∀ u, f u = .ok 200 txt (some j))
    (hnorm : normalizeUtxo j = some items)
    (hjt : truthy j = true)
    (htime : t' - t ≤ 30000) :
    (utxoHandler f [] t addr lq oq).resp.status = 200 ∧
    (utxoHandler f [] t addr lq oq).upstreamUrl
      = some (utxoUrl (normalizeAddress addr) (effLimit lq) (effOffset oq)) ∧
    (utxoHandler f [] t addr lq oq).cache
      = [(utxoUrl (normalizeAddress addr) (effLimit lq) (effOffset oq),
          ⟨.jobj [("items", items), ("raw", j)], t⟩)] ∧
    (utxoHandler f [(utxoUrl (normalizeAddress addr) (effLimit lq) (effOffset oq),
          ⟨.jobj [("items", items), ("raw", j)], t⟩)] t' addr lq oq).upstreamUrl = none ∧
    (utxoHandler f [(utxoUrl (normalizeAddress addr) (effLimit lq) (effOffset oq),
          ⟨.jobj [("items", items), ("raw", j)], t⟩)] t' addr lq oq).resp.status = 200 ∧
    (assetHandler f [] t tid).resp.status = 200 ∧
    (assetHandler f [] t tid).upstreamUrl = some (assetUrl (normalizeId tid)) ∧
    (assetHandler f [] t tid).cache = [(assetUrl (normalizeId tid), ⟨j, t⟩)] ∧
    (assetHandler f [(assetUrl (normalizeId tid), ⟨j, t⟩)] t' tid).upstreamUrl = none ∧
    (assetHandler f [(assetUrl (normalizeId tid), ⟨j, t⟩)] t' tid).resp.status = 200 ∧
    (txHandler f [] t txid).cache = [(txUrl (normalizeId txid), ⟨j, t⟩)] ∧
    (txHandler f [(txUrl (normalizeId txid), ⟨j, t⟩)] t' txid).upstreamUrl = none ∧
    (txHandler f [(txUrl (normalizeId txid), ⟨j, t⟩)] t' txid).resp.status = 200 ∧
    (summaryHandler f [] t addr).cache = [] := by
  have hustore := utxoHandler_store f t addr lq oq txt j items haddr hf hnorm
  have huhit := utxoHandler_hit f t t' addr lq oq (.jobj [("items", items), ("raw", j)])
    haddr rfl htime
  have hastore := assetHandler_store f t tid txt j hid hf
  have hahit := assetHandler_hit f t t' tid j hid hjt htime
  have htstore := txHandler_store f t txid txt j htx hf
  have hthit := txHandler_hit f t t' txid j htx hjt htime
  refine ⟨by rw [hustore], by rw [hustore], by rw [hustore], by rw [huhit],
          by rw [huhit], by rw [hastore], by rw [hastore], by rw [hastore],
          by rw [hahit], by rw [hahit], by rw [htstore], by rw [hthit], by rw [hthit],
          summaryHandler_no_store f t addr txt j haddr hf⟩

/-- Witness for C7: a concrete 200 payload is stored under the UTXO
URL and the repeat request 10 ms later makes no upstream call. -/
theorem C7_store_then_hit_witness :
    (utxoHandler (fun _ => FetchResult.ok 200 "" (some (Jv.jobj [("items", Jv.jarr [])])))
        [] 0 "a" none none).cache
      = [(utxoUrl (normalizeAddress "a") (effLimit none) (effOffset none),
          ⟨.jobj [("items", Jv.jarr []), ("raw", Jv.jobj [("items", Jv.jarr [])])], 0⟩)] ∧
    (utxoHandler (fun _ => FetchResult.ok 200 "" (some (Jv.jobj [("items", Jv.jarr [])])))
        [(utxoUrl (normalizeAddress "a") (effLimit none) (effOffset none),
          ⟨.jobj [("items", Jv.jarr []), ("raw", Jv.jobj [("items", Jv.jarr [])])], 0⟩)]
        10 "a" none none).upstreamUrl = none := by
  have h := C7_store_then_hit 0 10 "a" "t" "x" none none ""
    (Jv.jobj [("items", Jv.jarr [])]) (Jv.jarr [])
    (fun _ => FetchResult.ok 200 "" (some (Jv.jobj [("items", Jv.jarr [])])))
    (by decide) (by decide) (by decide) (fun u => rfl) (by rfl) (by rfl) (by decide)
  exact ⟨h.2.2.1, h.2.2.2.1⟩

/-- Counterexample for C7 as stated: the summary route never stores —
after a miss and a successful upstream 200 the cache is still empty,
and the identical request repeats the upstream call. -/
theorem C7_counterexample :
    (summaryHandler (fun _ => FetchResult.ok 200 "" (some (Jv.jobj [("items", Jv.jarr [])])))
        [] 0 "a").cache = [] ∧
    (summaryHandler (fun _ => FetchResult.ok 200 "" (some (Jv.jobj [("items", Jv.jarr [])])))
        [] 0 "a").upstreamUrl = some (summaryUrl "a") ∧
    (summaryHandler (fun _ => FetchResult.ok 200 "" (some (Jv.jobj [("items", Jv.jarr [])])))
        [] 10 "a").upstreamUrl = some (summaryUrl "a") := by
  refine ⟨by rfl, by rfl, by rfl⟩
